import Mathlib

/-!
Shallow embedding of the SOS Minglanilla dispatch backend (src/server.js,
PostgreSQL version). Tables become lists of rows; SQL `UPDATE ... WHERE id = $n`
becomes a map over the row list that rewrites matching rows; the assignment
transaction becomes a function on a working copy that is published only on
commit. Responses record the HTTP status code and the JSON body shape.
-/

namespace SOS

/-- A row of the `tickets` table. -/
structure Ticket where
  id : Nat
  ticket_number : String
  service_type : String
  user_name : String
  phone : String
  latitude : Int
  longitude : Int
  incident_details : String
  rescuer_id : Option Nat
  rescuer_name : Option String
  status : String
deriving DecidableEq, Repr

/-- A row of the `rescuers` table. `password` holds the bcrypt hash;
`profile_image` holds the raw image bytes when present. -/
structure Rescuer where
  id : Nat
  name : String
  badge_id : String
  callsign : String
  phone : String
  password : String
  profile_image : Option (List Nat)
  status : String
  last_lat : Option Int
  last_lon : Option Int
deriving DecidableEq, Repr

/-- The persistent store: the two tables the dispatch workflow touches. -/
structure Store where
  tickets : List Ticket
  rescuers : List Rescuer
deriving DecidableEq, Repr

/-- JSON body shapes produced by the routes under study. -/
inductive Body where
  | successMessage (success : Bool) (message : String)
  | errorBody (error : String)
  | successStatus (success : Bool) (status : String)
  | messageOnly (message : String)
  | rescuerRow (r : Rescuer)
  | imageBytes (b : List Nat)
  | textBody (s : String)
  | successOnly (success : Bool)
deriving DecidableEq, Repr

/-- An HTTP response: status code plus body. -/
structure Resp where
  code : Nat
  body : Body
deriving DecidableEq, Repr

/-- `UPDATE tickets SET rescuer_id = $1, rescuer_name = $2, status = DISPATCHED
WHERE id = $3`, applied to one row. -/
def assignTicketRow (rescuerId : Nat) (rescuerName : String) (ticketId : Nat)
    (t : Ticket) : Ticket :=
  if t.id = ticketId then
    { t with rescuer_id := some rescuerId, rescuer_name := some rescuerName,
             status := "DISPATCHED" }
  else t

/-- `UPDATE rescuers SET status = on-mission WHERE id = $1`, applied to one row. -/
def missionRescuerRow (rescuerId : Nat) (r : Rescuer) : Rescuer :=
  if r.id = rescuerId then { r with status := "on-mission" } else r

/-- Points at which a store failure may interrupt the assignment transaction. -/
inductive FailPoint where
  | atTicketUpdate
  | atRescuerUpdate
  | atCommit
deriving DecidableEq, Repr

/-- The body of the assignment transaction (`BEGIN` .. `COMMIT` in
POST /api/ticket/assign): both updates run against a working copy of the
store; any store failure aborts with an error before the copy is published. -/
def assignTxn (fail : Option FailPoint) (ticketId rescuerId : Nat)
    (rescuerName : String) (s : Store) : Except String Store :=
  if fail = some FailPoint.atTicketUpdate then Except.error "Update failed" else
  let w1 : Store :=
    { s with tickets := s.tickets.map (assignTicketRow rescuerId rescuerName ticketId) }
  if fail = some FailPoint.atRescuerUpdate then Except.error "Update failed" else
  let w2 : Store :=
    { w1 with rescuers := w1.rescuers.map (missionRescuerRow rescuerId) }
  if fail = some FailPoint.atCommit then Except.error "Update failed" else
  Except.ok w2

/-- POST /api/ticket/assign: run the transaction; on success commit the working
copy and answer a success body carrying the Unit dispatched message; on any
failure roll back — the pool state is untouched — and answer a 500 error. -/
def assignRescuer (fail : Option FailPoint) (ticketId rescuerId : Nat)
    (rescuerName : String) (s : Store) : Store × Resp :=
  match assignTxn fail ticketId rescuerId rescuerName s with
  | Except.ok w => (w, ⟨200, Body.successMessage true "Unit dispatched!"⟩)
  | Except.error e => (s, ⟨500, Body.errorBody e⟩)

/-- POST /api/ticket/solve/:id: set status to SOLVED on matching ticket rows,
unconditionally, then answer the marked-as-solved message. -/
def solveTicket (id : Nat) (s : Store) : Store × Resp :=
  ({ s with tickets :=
      s.tickets.map (fun t => if t.id = id then { t with status := "SOLVED" } else t) },
   ⟨200, Body.messageOnly "Ticket marked as solved"⟩)

/-- POST /api/rescuer/location: look up tickets with
`rescuer_id = $1 AND status = DISPATCHED`; derive the new status from whether
any row came back; write lat, lon and the derived status in one `UPDATE`. -/
def reportLocation (rescuerId : Nat) (lat lon : Int) (s : Store) : Store × Resp :=
  let missionRows := s.tickets.filter
    (fun t => t.rescuer_id == some rescuerId && t.status == "DISPATCHED")
  let newStatus := if missionRows.length > 0 then "responding" else "available"
  let rescuers := s.rescuers.map (fun r =>
    if r.id = rescuerId then
      { r with last_lat := some lat, last_lon := some lon, status := newStatus }
    else r)
  ({ s with rescuers := rescuers }, ⟨200, Body.successStatus true newStatus⟩)

/-- POST /api/rescuer/login: select the first rescuer row with the given
badge_id; a missing row or a failed bcrypt comparison answers a generic 401
Auth Failed error; on a match, set the row's status to available and answer
with the row as it was read. The argument verify models bcrypt.compare. -/
def login (verify : String → String → Bool) (badge_id pw : String)
    (s : Store) : Store × Resp :=
  match s.rescuers.find? (fun r => r.badge_id == badge_id) with
  | none => (s, ⟨401, Body.errorBody "Auth Failed"⟩)
  | some rescuer =>
    if verify pw rescuer.password then
      let rescuers := s.rescuers.map (fun r =>
        if r.id = rescuer.id then { r with status := "available" } else r)
      ({ s with rescuers := rescuers }, ⟨200, Body.rescuerRow rescuer⟩)
    else
      (s, ⟨401, Body.errorBody "Auth Failed"⟩)

/-- POST /api/rescuer/logout: `UPDATE rescuers SET status = off-duty WHERE id = $1`. -/
def logout (rescuerId : Nat) (s : Store) : Store × Resp :=
  let rescuers := s.rescuers.map (fun r =>
    if r.id = rescuerId then { r with status := "off-duty" } else r)
  ({ s with rescuers := rescuers }, ⟨200, Body.successOnly true⟩)

/-- One row's update under PUT /api/rescuers/:id: with an uploaded image the SQL
also sets `profile_image`; without one, `profile_image` is not in the SET list. -/
def updateRescuerRow (nm bid cs ph : String) (img : Option (List Nat))
    (r : Rescuer) : Rescuer :=
  match img with
  | some b =>
    { r with name := nm, badge_id := bid, callsign := cs, phone := ph,
             profile_image := some b }
  | none =>
    { r with name := nm, badge_id := bid, callsign := cs, phone := ph }

/-- PUT /api/rescuers/:id: update matching rows, then answer the
updated-successfully message. -/
def updateRescuer (id : Nat) (nm bid cs ph : String) (img : Option (List Nat))
    (s : Store) : Store × Resp :=
  let rescuers := s.rescuers.map (fun r =>
    if r.id = id then updateRescuerRow nm bid cs ph img r else r)
  ({ s with rescuers := rescuers }, ⟨200, Body.messageOnly "Updated successfully"⟩)

/-- GET /api/rescuers/image/:id: 404 when no row matches or the row holds no
image; otherwise the raw bytes with status 200. -/
def getRescuerImage (id : Nat) (s : Store) : Resp :=
  match s.rescuers.find? (fun r => r.id == id) with
  | none => ⟨404, Body.textBody "Image not found"⟩
  | some r =>
    match r.profile_image with
    | none => ⟨404, Body.textBody "Image not found"⟩
    | some img => ⟨200, Body.imageBytes img⟩

/-- Mapping a function that fixes every member leaves the list unchanged. -/
theorem map_of_forall_eq {α : Type} {f : α → α} {l : List α}
    (h : ∀ a ∈ l, f a = a) : l.map f = l := by
  induction l with
  | nil => rfl
  | cons a l ih =>
    simp only [List.map_cons, List.cons.injEq]
    exact ⟨h a (List.mem_cons_self a l), ih fun b hb => h b (List.mem_cons_of_mem a hb)⟩

/-- A filter has positive length exactly when some member satisfies the predicate. -/
theorem filter_length_pos_iff {α : Type} (p : α → Bool) (l : List α) :
    0 < (l.filter p).length ↔ ∃ a ∈ l, p a = true := by
  rw [List.length_pos_iff_ne_nil]
  constructor
  · intro h
    match hf : l.filter p with
    | [] => exact absurd hf h
    | b :: bs =>
      have hb : b ∈ l.filter p := by rw [hf]; exact List.mem_cons_self b bs
      have hmem := List.mem_filter.mp hb
      exact ⟨b, hmem.1, hmem.2⟩
  · rintro ⟨a, ha, hpa⟩ hnil
    have hmem : a ∈ l.filter p := List.mem_filter.mpr ⟨ha, hpa⟩
    rw [hnil] at hmem
    exact absurd hmem (List.not_mem_nil a)

/-! Concrete fixtures used by the witness theorems. -/

/-- An unassigned active ticket. -/
def ticket1 : Ticket :=
  { id := 1, ticket_number := "SOS-001", service_type := "Fire", user_name := "Ana",
    phone := "0917", latitude := 10, longitude := 123, incident_details := "House fire",
    rescuer_id := none, rescuer_name := none, status := "ACTIVE" }

/-- A ticket already solved, with a stale assignment to rescuer 7. -/
def ticket2 : Ticket :=
  { id := 2, ticket_number := "SOS-002", service_type := "Flood", user_name := "Ben",
    phone := "0918", latitude := 11, longitude := 124, incident_details := "Flooding",
    rescuer_id := some 7, rescuer_name := some "Bea", status := "SOLVED" }

/-- A rescuer currently on a mission, with a stored image and password hash. -/
def rescuer5 : Rescuer :=
  { id := 5, name := "Alex", badge_id := "B-5", callsign := "Alpha", phone := "0919",
    password := "secret#", profile_image := some [10, 20, 30], status := "on-mission",
    last_lat := none, last_lon := none }

/-- A toy stand-in for the credential hasher's verify: the hash of `pw` is `pw ++ "#"`. -/
def verifyDemo : String → String → Bool := fun pw h => (pw ++ "#") == h

/-- A small concrete store. -/
def store0 : Store := { tickets := [ticket1, ticket2], rescuers := [rescuer5] }

/-- C1: AssignRescuer is atomic. Whatever point of the transaction a store
failure hits, the published store is exactly the pre-call store — neither the
ticket rows nor the rescuer rows change — and a 500 "Update failed" error is
reported; no partial state is observable. -/
theorem assignRescuer_atomic_on_failure (fp : FailPoint) (ticketId rescuerId : Nat)
    (rescuerName : String) (s : Store) :
    (assignRescuer (some fp) ticketId rescuerId rescuerName s).1 = s ∧
    (assignRescuer (some fp) ticketId rescuerId rescuerName s).2 =
      ⟨500, Body.errorBody "Update failed"⟩ := by
  cases fp <;> exact ⟨rfl, rfl⟩

/-- C2: a successful AssignRescuer on an existing ticket and rescuer commits a
single post-state in which the ticket row carries rescuer_id = rescuerId,
rescuer_name = rescuerName and status DISPATCHED, the rescuer row carries
status on-mission, and the response reports success. -/
theorem assignRescuer_success_post (ticketId rescuerId : Nat) (rescuerName : String)
    (s : Store) (t : Ticket) (r : Rescuer)
    (ht : t ∈ s.tickets) (htid : t.id = ticketId)
    (hr : r ∈ s.rescuers) (hrid : r.id = rescuerId) :
    { t with rescuer_id := some rescuerId, rescuer_name := some rescuerName,
             status := "DISPATCHED" } ∈
      (assignRescuer none ticketId rescuerId rescuerName s).1.tickets ∧
    { r with status := "on-mission" } ∈
      (assignRescuer none ticketId rescuerId rescuerName s).1.rescuers ∧
    (assignRescuer none ticketId rescuerId rescuerName s).2 =
      ⟨200, Body.successMessage true "Unit dispatched!"⟩ := by
  refine ⟨?_, ?_, rfl⟩
  · have hm := List.mem_map_of_mem (assignTicketRow rescuerId rescuerName ticketId) ht
    simpa [assignRescuer, assignTxn, assignTicketRow, htid] using hm
  · have hm := List.mem_map_of_mem (missionRescuerRow rescuerId) hr
    simpa [assignRescuer, assignTxn, missionRescuerRow, hrid] using hm

/-- Witness for C2 on the concrete store. -/
theorem assignRescuer_success_post_witness :
    { ticket1 with rescuer_id := some 5, rescuer_name := some "Alex",
                   status := "DISPATCHED" } ∈
      (assignRescuer none 1 5 "Alex" store0).1.tickets ∧
    { rescuer5 with status := "on-mission" } ∈
      (assignRescuer none 1 5 "Alex" store0).1.rescuers ∧
    (assignRescuer none 1 5 "Alex" store0).2 =
      ⟨200, Body.successMessage true "Unit dispatched!"⟩ :=
  assignRescuer_success_post 1 5 "Alex" store0 ticket1 rescuer5
    (by decide) rfl (by decide) rfl

/-- C4: SolveTicket is idempotent and unconditional. For a ticket in any status
it marks the row SOLVED with no status check and answers the same success
message both times; a second call changes nothing further; the rescuers table
is untouched, and the row's rescuer_id and rescuer_name survive unchanged. -/
theorem solveTicket_idempotent_unconditional (id : Nat) (s : Store) (t : Ticket)
    (ht : t ∈ s.tickets) (htid : t.id = id) :
    { t with status := "SOLVED" } ∈ (solveTicket id s).1.tickets ∧
    { t with status := "SOLVED" } ∈ (solveTicket id (solveTicket id s).1).1.tickets ∧
    (solveTicket id (solveTicket id s).1).1 = (solveTicket id s).1 ∧
    (solveTicket id s).1.rescuers = s.rescuers ∧
    (solveTicket id s).2 = ⟨200, Body.messageOnly "Ticket marked as solved"⟩ ∧
    (solveTicket id (solveTicket id s).1).2 =
      ⟨200, Body.messageOnly "Ticket marked as solved"⟩ := by
  have hf : ∀ a : Ticket,
      (fun t => if t.id = id then { t with status := "SOLVED" } else t)
        ((fun t => if t.id = id then { t with status := "SOLVED" } else t) a) =
      (fun t => if t.id = id then { t with status := "SOLVED" } else t) a := by
    intro a
    by_cases h : a.id = id <;> simp [h]
  have hidem :
      (s.tickets.map (fun t => if t.id = id then { t with status := "SOLVED" } else t)).map
          (fun t => if t.id = id then { t with status := "SOLVED" } else t) =
        s.tickets.map (fun t => if t.id = id then { t with status := "SOLVED" } else t) := by
    rw [List.map_map]
    exact List.map_congr_left (fun a _ => hf a)
  have hmem := List.mem_map_of_mem
    (fun t => if t.id = id then { t with status := "SOLVED" } else t) ht
  refine ⟨?_, ?_, ?_, rfl, rfl, rfl⟩
  · simpa [solveTicket, htid] using hmem
  · simpa [solveTicket, htid, hidem] using hmem
  · simp [solveTicket, hidem]

/-- Witness for C4 on the concrete store. -/
theorem solveTicket_idempotent_unconditional_witness :
    { ticket1 with status := "SOLVED" } ∈ (solveTicket 1 store0).1.tickets ∧
    { ticket1 with status := "SOLVED" } ∈
      (solveTicket 1 (solveTicket 1 store0).1).1.tickets ∧
    (solveTicket 1 (solveTicket 1 store0).1).1 = (solveTicket 1 store0).1 ∧
    (solveTicket 1 store0).1.rescuers = store0.rescuers ∧
    (solveTicket 1 store0).2 = ⟨200, Body.messageOnly "Ticket marked as solved"⟩ ∧
    (solveTicket 1 (solveTicket 1 store0).1).2 =
      ⟨200, Body.messageOnly "Ticket marked as solved"⟩ :=
  solveTicket_idempotent_unconditional 1 store0 ticket1 (by decide) rfl

/-- C8: AssignRescuer applies no guard on the ticket's current status: for a
ticket row in any status — SOLVED or already DISPATCHED to another rescuer
included — the operation succeeds and silently overwrites rescuer_id,
rescuer_name and status. -/
theorem assignRescuer_no_transition_guard (ticketId rescuerId : Nat)
    (rescuerName : String) (s : Store) (t : Ticket)
    (ht : t ∈ s.tickets) (htid : t.id = ticketId) :
    { t with rescuer_id := some rescuerId, rescuer_name := some rescuerName,
             status := "DISPATCHED" } ∈
      (assignRescuer none ticketId rescuerId rescuerName s).1.tickets ∧
    (assignRescuer none ticketId rescuerId rescuerName s).2 =
      ⟨200, Body.successMessage true "Unit dispatched!"⟩ := by
  refine ⟨?_, rfl⟩
  have hm := List.mem_map_of_mem (assignTicketRow rescuerId rescuerName ticketId) ht
  simpa [assignRescuer, assignTxn, assignTicketRow, htid] using hm

/-- Witness for C8: re-dispatching the already-SOLVED ticket 2 (held by
rescuer 7) to rescuer 5 succeeds and overwrites all three fields. -/
theorem assignRescuer_no_transition_guard_witness :
    { ticket2 with rescuer_id := some 5, rescuer_name := some "Alex",
                   status := "DISPATCHED" } ∈
      (assignRescuer none 2 5 "Alex" store0).1.tickets ∧
    (assignRescuer none 2 5 "Alex" store0).2 =
      ⟨200, Body.successMessage true "Unit dispatched!"⟩ :=
  assignRescuer_no_transition_guard 2 5 "Alex" store0 ticket2 (by decide) rfl

/-- C10: an AssignRescuer whose ticketId or rescuerId references no stored row
updates zero rows for that id — when no ticket matches, the tickets table is
unchanged; when no rescuer matches, the rescuers table is unchanged — yet the
response is, unconditionally, the very same success a real dispatch answers. -/
theorem assignRescuer_missing_ids (ticketId rescuerId : Nat) (rescuerName : String)
    (s : Store) :
    ((∀ t ∈ s.tickets, t.id ≠ ticketId) →
      (assignRescuer none ticketId rescuerId rescuerName s).1.tickets = s.tickets) ∧
    ((∀ r ∈ s.rescuers, r.id ≠ rescuerId) →
      (assignRescuer none ticketId rescuerId rescuerName s).1.rescuers = s.rescuers) ∧
    (assignRescuer none ticketId rescuerId rescuerName s).2 =
      ⟨200, Body.successMessage true "Unit dispatched!"⟩ := by
  refine ⟨?_, ?_, rfl⟩
  · intro ht
    have h1 : s.tickets.map (assignTicketRow rescuerId rescuerName ticketId) = s.tickets :=
      map_of_forall_eq (fun a ha => by simp [assignTicketRow, ht a ha])
    simp [assignRescuer, assignTxn, h1]
  · intro hr
    have h2 : s.rescuers.map (missionRescuerRow rescuerId) = s.rescuers :=
      map_of_forall_eq (fun a ha => by simp [missionRescuerRow, hr a ha])
    simp [assignRescuer, assignTxn, h2]

/-- Witness for C10: ghost ticket id 99 with the real rescuer id 5 — the
tickets table is untouched, yet the response still announces a dispatched
unit, exactly as a real assignment would. -/
theorem assignRescuer_missing_ids_witness :
    (assignRescuer none 99 5 "Alex" store0).1.tickets = store0.tickets ∧
    (assignRescuer none 99 5 "Alex" store0).2 =
      ⟨200, Body.successMessage true "Unit dispatched!"⟩ :=
  ⟨(assignRescuer_missing_ids 99 5 "Alex" store0).1 (by decide),
   (assignRescuer_missing_ids 99 5 "Alex" store0).2.2⟩

/-- C3: ReportLocation derives the new status from the tickets table —
responding when some ticket is DISPATCHED to this rescuer, available
otherwise — and persists last_lat, last_lon and the derived status in the same
row write; the response echoes the derived status. -/
theorem reportLocation_derived_status (rescuerId : Nat) (lat lon : Int) (s : Store)
    (r : Rescuer) (hr : r ∈ s.rescuers) (hrid : r.id = rescuerId) :
    ((∃ t ∈ s.tickets, t.rescuer_id = some rescuerId ∧ t.status = "DISPATCHED") →
      { r with last_lat := some lat, last_lon := some lon, status := "responding" } ∈
        (reportLocation rescuerId lat lon s).1.rescuers ∧
      (reportLocation rescuerId lat lon s).2 =
        ⟨200, Body.successStatus true "responding"⟩) ∧
    ((¬ ∃ t ∈ s.tickets, t.rescuer_id = some rescuerId ∧ t.status = "DISPATCHED") →
      { r with last_lat := some lat, last_lon := some lon, status := "available" } ∈
        (reportLocation rescuerId lat lon s).1.rescuers ∧
      (reportLocation rescuerId lat lon s).2 =
        ⟨200, Body.successStatus true "available"⟩) := by
  have key : (0 < (s.tickets.filter
        (fun t => t.rescuer_id == some rescuerId && t.status == "DISPATCHED")).length) ↔
      ∃ t ∈ s.tickets, t.rescuer_id = some rescuerId ∧ t.status = "DISPATCHED" := by
    rw [filter_length_pos_iff]
    simp
  by_cases hpos : 0 < (s.tickets.filter
      (fun t => t.rescuer_id == some rescuerId && t.status == "DISPATCHED")).length
  · refine ⟨fun _ => ⟨?_, ?_⟩, fun hn => absurd (key.mp hpos) hn⟩
    · simp only [reportLocation, gt_iff_lt, if_pos hpos]
      exact List.mem_map.mpr ⟨r, hr, by simp [hrid]⟩
    · simp [reportLocation, if_pos hpos]
  · refine ⟨fun hM => absurd (key.mpr hM) hpos, fun _ => ⟨?_, ?_⟩⟩
    · simp only [reportLocation, gt_iff_lt, if_neg hpos]
      exact List.mem_map.mpr ⟨r, hr, by simp [hrid]⟩
    · simp [reportLocation, if_neg hpos]

/-- Witness for C3: rescuer 5 holds no DISPATCHED ticket in the store (ticket 2
is SOLVED and belongs to rescuer 7), so the update lands as available. -/
theorem reportLocation_derived_status_witness :
    (¬ ∃ t ∈ store0.tickets, t.rescuer_id = some 5 ∧ t.status = "DISPATCHED") ∧
    ({ rescuer5 with last_lat := some 7, last_lon := some 8, status := "available" } ∈
      (reportLocation 5 7 8 store0).1.rescuers ∧
    (reportLocation 5 7 8 store0).2 = ⟨200, Body.successStatus true "available"⟩) := by
  have hne : ¬ ∃ t ∈ store0.tickets, t.rescuer_id = some 5 ∧ t.status = "DISPATCHED" := by
    decide
  exact ⟨hne, (reportLocation_derived_status 5 7 8 store0 rescuer5
    (by decide) rfl).2 hne⟩

/-- C5: a successful login forces the rescuer's stored status to available,
whatever it was before (here on-mission included), and logout forces the
status to off-duty unconditionally, for a rescuer in any prior status. -/
theorem login_logout_force_status (verify : String → String → Bool)
    (badge pw : String) (s : Store) (r : Rescuer)
    (hfind : s.rescuers.find? (fun x => x.badge_id == badge) = some r)
    (hv : verify pw r.password = true)
    (rid : Nat) (s2 : Store) (r2 : Rescuer)
    (hr2 : r2 ∈ s2.rescuers) (hr2id : r2.id = rid) :
    { r with status := "available" } ∈ (login verify badge pw s).1.rescuers ∧
    { r2 with status := "off-duty" } ∈ (logout rid s2).1.rescuers := by
  have hrmem : r ∈ s.rescuers := List.mem_of_find?_eq_some hfind
  constructor
  · simp only [login, hfind, hv, if_true]
    exact List.mem_map.mpr ⟨r, hrmem, by simp⟩
  · simp only [logout]
    exact List.mem_map.mpr ⟨r2, hr2, by simp [hr2id]⟩

/-- Witness for C5: rescuer 5 is on-mission; logging in with the right
password flips the row to available, and logging out flips it to off-duty. -/
theorem login_logout_force_status_witness :
    { rescuer5 with status := "available" } ∈
      (login verifyDemo "B-5" "secret" store0).1.rescuers ∧
    { rescuer5 with status := "off-duty" } ∈ (logout 5 store0).1.rescuers :=
  login_logout_force_status verifyDemo "B-5" "secret" store0 rescuer5
    (by decide) (by decide) 5 store0 rescuer5 (by decide) rfl

/-- C6: updating a rescuer's name/badge/callsign/phone without a new image
leaves the stored image bytes unchanged and still retrievable through the
image route; supplying a new image replaces the stored bytes. -/
theorem updateRescuer_image_preservation (id : Nat) (nm bid cs ph : String)
    (s : Store) (r : Rescuer) (img newImg : List Nat)
    (hfind : s.rescuers.find? (fun x => x.id == id) = some r)
    (himg : r.profile_image = some img) :
    getRescuerImage id (updateRescuer id nm bid cs ph none s).1 =
      ⟨200, Body.imageBytes img⟩ ∧
    { r with name := nm, badge_id := bid, callsign := cs, phone := ph } ∈
      (updateRescuer id nm bid cs ph none s).1.rescuers ∧
    { r with name := nm, badge_id := bid, callsign := cs, phone := ph,
             profile_image := some newImg } ∈
      (updateRescuer id nm bid cs ph (some newImg) s).1.rescuers := by
  have hrid : r.id = id := by simpa using List.find?_some hfind
  have hrmem : r ∈ s.rescuers := List.mem_of_find?_eq_some hfind
  refine ⟨?_, ?_, ?_⟩
  · have hpredinv : ∀ x : Rescuer,
        (fun y : Rescuer => y.id == id)
          ((fun y : Rescuer =>
            if y.id = id then updateRescuerRow nm bid cs ph none y else y) x) =
        (fun y : Rescuer => y.id == id) x := by
      intro x
      by_cases hx : x.id = id <;> simp [updateRescuerRow, hx]
    have hpf : ((fun y : Rescuer => y.id == id) ∘
        fun y : Rescuer => if y.id = id then updateRescuerRow nm bid cs ph none y else y) =
        fun y : Rescuer => y.id == id := funext hpredinv
    simp only [getRescuerImage, updateRescuer, List.find?_map, hpf, hfind,
      Option.map_some']
    simp [hrid, updateRescuerRow, himg]
  · simp only [updateRescuer]
    exact List.mem_map.mpr ⟨r, hrmem, by simp [hrid, updateRescuerRow]⟩
  · simp only [updateRescuer]
    exact List.mem_map.mpr ⟨r, hrmem, by simp [hrid, updateRescuerRow]⟩

/-- Witness for C6 on the concrete store: rescuer 5's bytes [10, 20, 30]
survive an image-less update and are replaced by [4, 5] when supplied. -/
theorem updateRescuer_image_preservation_witness :
    getRescuerImage 5 (updateRescuer 5 "Alexa" "B-5" "Alpha2" "0920" none store0).1 =
      ⟨200, Body.imageBytes [10, 20, 30]⟩ ∧
    { rescuer5 with name := "Alexa", badge_id := "B-5", callsign := "Alpha2",
                    phone := "0920" } ∈
      (updateRescuer 5 "Alexa" "B-5" "Alpha2" "0920" none store0).1.rescuers ∧
    { rescuer5 with name := "Alexa", badge_id := "B-5", callsign := "Alpha2",
                    phone := "0920", profile_image := some [4, 5] } ∈
      (updateRescuer 5 "Alexa" "B-5" "Alpha2" "0920" (some [4, 5]) store0).1.rescuers :=
  updateRescuer_image_preservation 5 "Alexa" "B-5" "Alpha2" "0920" store0 rescuer5
    [10, 20, 30] [4, 5] (by decide) rfl

/-- C7: a login that fails because the badge is unknown and one that fails
because the password is wrong produce identical responses — the same 401
status and the same generic "Auth Failed" body — and neither touches the
store, so an observer cannot tell which factor failed. -/
theorem login_failure_indistinguishable (verify : String → String → Bool)
    (s1 s2 : Store) (b1 p1 b2 p2 : String) (r : Rescuer)
    (h1 : s1.rescuers.find? (fun x => x.badge_id == b1) = none)
    (h2 : s2.rescuers.find? (fun x => x.badge_id == b2) = some r)
    (hv : verify p2 r.password = false) :
    (login verify b1 p1 s1).2 = (login verify b2 p2 s2).2 ∧
    login verify b1 p1 s1 = (s1, ⟨401, Body.errorBody "Auth Failed"⟩) ∧
    login verify b2 p2 s2 = (s2, ⟨401, Body.errorBody "Auth Failed"⟩) := by
  have e1 : login verify b1 p1 s1 = (s1, ⟨401, Body.errorBody "Auth Failed"⟩) := by
    simp [login, h1]
  have e2 : login verify b2 p2 s2 = (s2, ⟨401, Body.errorBody "Auth Failed"⟩) := by
    simp [login, h2, hv]
  exact ⟨by rw [e1, e2], e1, e2⟩

/-- Witness for C7: unknown badge "ZZZ" versus known badge "B-5" with the
wrong password yield the very same response on the concrete store. -/
theorem login_failure_indistinguishable_witness :
    (login verifyDemo "ZZZ" "whatever" store0).2 = (login verifyDemo "B-5" "nope" store0).2 ∧
    login verifyDemo "ZZZ" "whatever" store0 =
      (store0, ⟨401, Body.errorBody "Auth Failed"⟩) ∧
    login verifyDemo "B-5" "nope" store0 =
      (store0, ⟨401, Body.errorBody "Auth Failed"⟩) :=
  login_failure_indistinguishable verifyDemo store0 store0 "ZZZ" "whatever" "B-5" "nope"
    rescuer5 (by decide) (by decide) (by decide)

/-- C9: the success response of login is the row exactly as read before the
status update — bcrypt hash included, status still the pre-login one — while
the store is updated to available behind it. -/
theorem login_response_is_prestate_row (verify : String → String → Bool)
    (badge pw : String) (s : Store) (r : Rescuer)
    (hfind : s.rescuers.find? (fun x => x.badge_id == badge) = some r)
    (hv : verify pw r.password = true) :
    (login verify badge pw s).2 = ⟨200, Body.rescuerRow r⟩ ∧
    r ∈ s.rescuers ∧
    { r with status := "available" } ∈ (login verify badge pw s).1.rescuers := by
  have hrmem : r ∈ s.rescuers := List.mem_of_find?_eq_some hfind
  refine ⟨by simp [login, hfind, hv], hrmem, ?_⟩
  simp only [login, hfind, hv, if_true]
  exact List.mem_map.mpr ⟨r, hrmem, by simp⟩

/-- Witness for C9: the successful login of rescuer 5 answers with the stored
row — password hash "secret#" and pre-login status "on-mission" — although the
store now says available. -/
theorem login_response_is_prestate_row_witness :
    (login verifyDemo "B-5" "secret" store0).2 = ⟨200, Body.rescuerRow rescuer5⟩ ∧
    rescuer5 ∈ store0.rescuers ∧
    { rescuer5 with status := "available" } ∈
      (login verifyDemo "B-5" "secret" store0).1.rescuers :=
  login_response_is_prestate_row verifyDemo "B-5" "secret" store0 rescuer5
    (by decide) (by decide)

end SOS
